import Mathlib

/-!
Shallow embedding of the chem-si-helper parsing and validation core.

The source is TypeScript; JavaScript numbers are idealized as rationals
(all inputs relevant to the verified claims are decimal literals on which
IEEE doubles and exact rationals agree; this was checked for the boundary
case 1000 * 7.6 % 400, which is exactly 0 in doubles as well).

Regular-expression matching itself lives in utils/regex.ts, which is not
part of the sources at hand; functions that consume match results are
therefore parameterized by the (optional) match-group arrays, exactly as
the surrounding code reads them.  Everything downstream of the match is
translated statement by statement from the source.
-/

attribute [local semireducible] Rat.add Rat.mul Rat.sub Rat.inv Rat.ofScientific

namespace ChemSI

/-! ## JavaScript numeric primitives (rational idealization) -/

/-- JS Math.round: round half toward positive infinity. -/
def jsMathRound (x : ℚ) : ℤ := ⌊x + 1 / 2⌋

/-- lodash round(x, p): decimal rounding to p places (half up). -/
def roundTo (p : ℕ) (x : ℚ) : ℚ := (jsMathRound (x * 10 ^ p) : ℚ) / 10 ^ p

/-- Truncation toward zero, as used by the JS remainder operator. -/
def ratTrunc (q : ℚ) : ℤ := if 0 ≤ q then ⌊q⌋ else -⌊-q⌋

/-- JS remainder a % b (sign of the dividend). -/
def jsMod (a b : ℚ) : ℚ := a - b * (ratTrunc (a / b) : ℚ)

/-- Decimal digit characters. -/
def isDigitCh (c : Char) : Bool := '0' ≤ c && c ≤ '9'

/-- Value of a digit run, most significant first (empty run allowed). -/
def digitsToNat : List Char → ℕ
  | [] => 0
  | c :: cs => (c.toNat - '0'.toNat) * 10 ^ cs.length + digitsToNat cs

/-- Split a character list at the decimal points. -/
def splitDotAux : List Char → List Char → List (List Char)
  | [], acc => [acc.reverse]
  | c :: rest, acc =>
    if c = '.' then acc.reverse :: splitDotAux rest []
    else splitDotAux rest (c :: acc)

/-- JS Number(s) on plain decimal strings, returning none for NaN.
Handles "12", "12.5", "12.", ".5"; the empty string converts to 0. -/
def jsNumQ (s : String) : Option ℚ :=
  if s = "" then some 0 else
  match splitDotAux s.toList [] with
  | [a] =>
    if a.all isDigitCh then some (digitsToNat a) else none
  | [a, b] =>
    if a.all isDigitCh && b.all isDigitCh && (!a.isEmpty || !b.isEmpty) then
      some ((digitsToNat a : ℚ) + (digitsToNat b : ℚ) / 10 ^ b.length)
    else none
  | _ => none

/-- JS Number applied to a possibly undefined value (undefined gives NaN). -/
def jsNumOpt (s : Option String) : Option ℚ :=
  match s with
  | none => none
  | some s => jsNumQ s

/-- Comparison a < b where either side may be NaN (NaN compares false). -/
def jsLt (a b : Option ℚ) : Bool :=
  match a, b with
  | some x, some y => decide (x < y)
  | _, _ => false

/-- Left-pad a string with zeros up to width p. -/
def padZeros (p : ℕ) (s : String) : String :=
  String.mk (List.replicate (p - s.length) '0') ++ s

/-- JS x.toFixed(p) for nonnegative x: fixed-point rendering with p decimals. -/
def toFixedStr (p : ℕ) (x : ℚ) : String :=
  let m := (jsMathRound (x * 10 ^ p)).toNat
  if p = 0 then toString m
  else toString (m / 10 ^ p) ++ "." ++ padZeros p (toString (m % 10 ^ p))

/-- Substring test on character lists (lodash includes on strings). -/
def containsSub (hay nd : List Char) : Bool :=
  hay.tails.any (fun t => nd.isPrefixOf t)

/-- Replace the first occurrence of pat in hay by rep (character lists). -/
def jsReplaceAux (pat rep : List Char) : List Char → List Char
  | [] => []
  | c :: rest =>
    if pat.isPrefixOf (c :: rest) then rep ++ (c :: rest).drop pat.length
    else c :: jsReplaceAux pat rep rest

/-- lodash replace(s, pat, rep): replace the first occurrence of pat.
An empty pattern matches at position 0, as in JS. -/
def jsReplace (s pat rep : String) : String :=
  if pat = "" then rep ++ s
  else String.mk (jsReplaceAux pat.toList rep.toList s.toList)

/-! ## Annotation model -/

/-- Classification carried by an annotation (utils/nmr HighlightType). -/
inductive HighlightType
  | Success
  | Warning
  | Danger
deriving DecidableEq

/-- Modelled from the spec: utils/utils.highlightData is not under src/.
Per the spec the core only tags a span with a classification and a message
for the external renderer; we render the tag as a distinctive string. -/
def highlightData (data : String) (t : HighlightType) (errMsg : String) : String :=
  let cls :=
    match t with
    | HighlightType.Success => "success"
    | HighlightType.Warning => "warning"
    | HighlightType.Danger => "danger"
  "<span class=" ++ cls ++ " data-tooltip=" ++ errMsg ++ ">" ++ data ++ "</span>"

/-- Modelled from the spec: utils/utils.escapeSpace is not under src/; it
prepares a span for HTML display by escaping blanks. -/
def escapeSpace (s : String) : String :=
  String.mk (s.toList.flatMap (fun c => if c = ' ' then "&nbsp;".toList else [c]))

/-- Ambient language selection (LanguageService); 0 selects English.
The spec notes that language selects message text only. -/
def langIdx : ℕ := 0

/-- Select the message for the current language from a message pair. -/
def msgAt (l : List String) : String := l.getD langIdx ""

/-! ## Formula engine (utils/formula, modelled)

The Formula class lives in utils/formula.ts, which is not under src/. -/

/-- Modelled from the spec: the closed element to monoisotopic-mass table
(utils/element) with the most abundant isotope masses. -/
def elementLookup : List (String × ℚ) :=
  [("C", 12), ("H", 100782503207 / 10 ^ 11), ("N", 140030740048 / 10 ^ 10),
   ("O", 159949146196 / 10 ^ 10), ("F", 189984031627 / 10 ^ 10),
   ("Na", 229897692820 / 10 ^ 10), ("S", 319720710015 / 10 ^ 10),
   ("Cl", 349688527103 / 10 ^ 10), ("K", 389637064864 / 10 ^ 10),
   ("Br", 789183376 / 10 ^ 7), ("Cs", 1329054519610 / 10 ^ 10)]

def isUpperCh (c : Char) : Bool := 'A' ≤ c && c ≤ 'Z'
def isLowerCh (c : Char) : Bool := 'a' ≤ c && c ≤ 'z'

/-- Modelled from the spec: the Formula tokenizer consumes consecutive
(capital-letter-led element symbol, optional digit run) pairs and fails on
residual characters, unknown symbols, or an explicit zero count.  The fuel
argument bounds recursion by the input length. -/
def parseFormulaAux : ℕ → List Char → Option (List (String × ℕ))
  | _, [] => some []
  | 0, _ :: _ => none
  | fuel + 1, c :: rest =>
    if isUpperCh c then
      let lows := rest.takeWhile isLowerCh
      let r1 := rest.dropWhile isLowerCh
      let sym := String.mk (c :: lows)
      let digs := r1.takeWhile isDigitCh
      let r2 := r1.dropWhile isDigitCh
      let cnt := if digs.isEmpty then 1 else digitsToNat digs
      if (elementLookup.map Prod.fst).contains sym && cnt ≥ 1 then
        match parseFormulaAux fuel r2 with
        | some l => some ((sym, cnt) :: l)
        | none => none
      else none
    else none

/-- Modelled from the spec: Formula parsing entry point. -/
def parseFormula (s : String) : Option (List (String × ℕ)) :=
  parseFormulaAux s.length s.toList

namespace Formula

/-- Modelled from the spec: Formula.isValid wraps the parser. -/
def isValid (s : String) : Bool := (parseFormula s).isSome

/-- Modelled from the spec: Formula.getExactMass sums elementMass * count
over the parsed pairs. -/
def getExactMass (s : String) : ℚ :=
  match parseFormula s with
  | some l => (l.map (fun p => ((elementLookup.lookup p.1).getD 0) * p.2)).sum
  | none => 0

/-- Modelled from the spec: canonical plain rendering of a formula. -/
def canonicalString (s : String) : String :=
  match parseFormula s with
  | some l =>
    String.join (l.map (fun p => p.1 ++ (if p.2 = 1 then "" else toString p.2)))
  | none => s

/-- Modelled from the spec: rendering with counts tagged for subscript. -/
def formattedString (s : String) : String :=
  match parseFormula s with
  | some l =>
    String.join (l.map (fun p =>
      p.1 ++ (if p.2 = 1 then "" else "<sub>" ++ toString p.2 ++ "</sub>")))
  | none => s

end Formula

/-! ## HRMS component (src/scripts/hrmsComponent.ts) -/

namespace HrmsComponent

/-- Error message table from the HrmsComponent constructor (English, Chinese). -/
def errMsgDataErr : List String := ["HRMS Data not valid.", "数据有误"]
def errMsgFormatErr : List String := ["Format not valid.", "格式有误"]
def errMsgDecimalErr : List String :=
  ["Mass value should be rounded to two decimal places", "应保留4位小数"]
def errMsgCalcErr : List String := ["Data error, calculated value: ", "数据错误，计算值："]
def errMsgFoundErr : List String := ["Deviation should be less than 0.003", "偏差值应小于0.003"]

/-- HrmsComponent.getDangerStr: annotate the whole datum, or replace the
first occurrence of a target substring by its annotated form. -/
def getDangerStr (data errMsg : String) (strToReplace : Option String) : String :=
  match strToReplace with
  | none => highlightData data HighlightType.Danger errMsg
  | some s => jsReplace data s (highlightData s HighlightType.Danger errMsg)

/-- HrmsComponent.dangerOnCondition: only the highlighted rendering pass
carries the annotation; the plain pass returns the datum unchanged. -/
def dangerOnCondition (willHighlight : Bool) (data errMsg : String)
    (rep : Option String) : String :=
  if willHighlight then getDangerStr data errMsg rep else data

/-- A reported mass: a decimal string with integer part and fraction digits.
The HRMS data grammar only yields dotted decimal strings here. -/
structure MassStr where
  ip : ℕ
  fp : List ℕ
deriving DecidableEq

/-- Numeric value of a fraction-digit list. -/
def fracVal : List ℕ → ℚ
  | [] => 0
  | d :: ds => ((d : ℚ) + fracVal ds) / 10

/-- JS Number of the mass string. -/
def MassStr.val (m : MassStr) : ℚ := m.ip + fracVal m.fp

/-- Length of the part after the decimal point (split('.')[1].length). -/
def MassStr.fracLen (m : MassStr) : ℕ := m.fp.length

/-- The underlying string. -/
def MassStr.render (m : MassStr) : String :=
  toString m.ip ++ "." ++ String.join (m.fp.map toString)

/-- Digits of n padded to p places, most significant first. -/
def natDigitsPadded (p n : ℕ) : List ℕ :=
  (List.range p).reverse.map (fun i => n / 10 ^ i % 10)

/-- JS Number(x).toFixed(p) for nonnegative x, as a mass string. -/
def toFixedMass (p : ℕ) (x : ℚ) : MassStr :=
  let m := (jsMathRound (x * 10 ^ p)).toNat
  ⟨m / 10 ^ p, natDigitsPadded p (m % 10 ^ p)⟩

/-- HrmsData record from hrmsComponent.ts. -/
structure HrmsData where
  data : String
  source : String
  ion : String
  formula : String
  exactMass : MassStr
  foundMass : MassStr
  calcdMass : ℚ
deriving DecidableEq

/-- HrmsComponent.getIonMass: the empty counter ion contributes zero, any
other counter ion deducts one electron mass. -/
def getIonMass (ion : String) : ℚ :=
  if ion = "" then 0
  else
    let massOfElectron : ℚ := 549 / 10 ^ 6;
    -massOfElectron

def sourceList : List String :=
  ["ESI", "APCI", "EI", "MALDI", "CI", "FD", "FI", "FAB", "APPI", "TS", "PB", "DART"]

def ionList : List String := ["", "H", "Na", "K", "Cs"]

/-- Result of hrmsData.match(ionReg): the whole match and groups 1 to 4
(a group that did not participate is none, mirroring undefined). -/
structure IonMatch where
  whole : String
  g1 : Option String
  g2 : Option String
  g3 : Option String
  g4 : Option String
deriving DecidableEq

/-- Result of hrmsData.match(dataReg): groups 1 (formula), 3 (exact mass)
and 4 (found mass); the mass groups are decimal strings when present. -/
structure DataMatch where
  formula : Option String
  exactMass : Option MassStr
  foundMass : Option MassStr
deriving DecidableEq

/-- JS a || b on possibly undefined strings (empty string is falsy). -/
def jsOrStr (a b : Option String) : Option String :=
  match a with
  | some s => if s ≠ "" then some s else b
  | none => b

/-- HrmsComponent.parseHrmsData, parameterized by the three regex match
results it reads (sourceMatch carries group 1).  Translated branch by
branch from the source, including the unreachable duplicate formula
check. -/
def parseHrmsData (isStrict : Bool) (hrmsData : String)
    (sourceMatch : Option (Option String)) (ionMatch : Option IonMatch)
    (dataMatch : Option DataMatch) : String ⊕ HrmsData :=
  match sourceMatch with
  | none => Sum.inl (getDangerStr hrmsData (msgAt errMsgDataErr) none)
  | some g1 =>
    let isContained := sourceList.any (fun avail =>
      match g1 with
      | some src => containsSub src.toList avail.toList
      | none => false)
    if !isContained then
      Sum.inl (getDangerStr hrmsData (msgAt errMsgDataErr) (some (g1.getD "")))
    else
      match ionMatch with
      | none => Sum.inl (getDangerStr hrmsData (msgAt errMsgDataErr) none)
      | some im =>
        let ionPlusSign := jsOrStr im.g1 im.g3
        let ion := jsOrStr im.g2 im.g4
        let ionInList :=
          match ion with
          | some s => ionList.contains s
          | none => false
        let ionEarly : Option String :=
          if ion = some "" then
            if ionPlusSign ≠ some "" then
              some (getDangerStr hrmsData (msgAt errMsgDataErr) (some im.whole))
            else none
          else if ionInList then
            if isStrict && ionPlusSign ≠ some " + " then
              some (getDangerStr hrmsData (msgAt errMsgFormatErr) (some im.whole))
            else none
          else some (getDangerStr hrmsData (msgAt errMsgDataErr) (some im.whole))
        match ionEarly with
        | some e => Sum.inl e
        | none =>
          match dataMatch with
          | none => Sum.inl (getDangerStr hrmsData (msgAt errMsgDataErr) none)
          | some dm =>
            -- the tempArr loop: first falsy item aborts with String(item)
            match dm.formula, dm.exactMass, dm.foundMass with
            | none, _, _ =>
              Sum.inl (getDangerStr hrmsData (msgAt errMsgDataErr) (some "undefined"))
            | some "", _, _ =>
              Sum.inl (getDangerStr hrmsData (msgAt errMsgDataErr) (some ""))
            | some _, none, _ =>
              Sum.inl (getDangerStr hrmsData (msgAt errMsgDataErr) (some "undefined"))
            | some _, some _, none =>
              Sum.inl (getDangerStr hrmsData (msgAt errMsgDataErr) (some "undefined"))
            | some formula, some e, some f =>
              if !(Formula.isValid formula) then
                Sum.inl (getDangerStr hrmsData (msgAt errMsgDataErr) (some formula))
              else
                let calcdMass :=
                  roundTo 4 (roundTo 5 (Formula.getExactMass formula + getIonMass (ion.getD "")))
                Sum.inr ⟨hrmsData, (g1.getD ""), ion.getD "", formula, e, f, calcdMass⟩

/-- Body of the map inside HrmsComponent.renderStrArrays, for one record. -/
def renderHrmsDatum (isStrict willHighlight : Bool) (hrms : String ⊕ HrmsData) : String :=
  let requiredDecimal := 4
  let maxFoundError : ℚ := 3 / 1000
  match hrms with
  | Sum.inl s => if willHighlight then "<strong>" ++ s ++ "</strong>" else s
  | Sum.inr h0 =>
    let step : String ⊕ HrmsData :=
      if isStrict then
        if h0.exactMass.fracLen ≠ requiredDecimal then
          Sum.inl (dangerOnCondition willHighlight h0.data (msgAt errMsgDecimalErr)
            (some h0.exactMass.render))
        else if h0.foundMass.fracLen ≠ requiredDecimal then
          Sum.inl (dangerOnCondition willHighlight h0.data (msgAt errMsgDecimalErr)
            (some h0.foundMass.render))
        else if |h0.foundMass.val - h0.exactMass.val| > maxFoundError then
          Sum.inl (dangerOnCondition willHighlight h0.data (msgAt errMsgFoundErr)
            (some h0.foundMass.render))
        else Sum.inr h0
      else Sum.inr { h0 with exactMass := toFixedMass 4 h0.exactMass.val }
    match step with
    | Sum.inl out => out
    | Sum.inr h =>
      let errorEdge : ℚ := 1 / 10 ^ 4
      if roundTo 4 |h.exactMass.val - h.calcdMass| > errorEdge then
        dangerOnCondition willHighlight h.data
          (msgAt errMsgCalcErr ++ toFixedStr 4 h.calcdMass) (some h.exactMass.render)
      else
        let mergedData := jsReplace h.data h.formula (Formula.canonicalString h.formula)
        let formattedData := jsReplace h.data h.formula (Formula.formattedString h.formula)
        if willHighlight then
          "<b>" ++ highlightData formattedData HighlightType.Success "" ++ "</b>"
        else mergedData

/-- YieldWeightHrms from hrmsComponent.ts (numbers may be NaN, here none). -/
structure YieldWeightHrms where
  hrms : String
  errMsg : String
  yield_ : Option ℚ
  weight : Option ℚ
deriving DecidableEq

/-- Per-line body of the map inside HrmsComponent.getHrmsDataArray,
parameterized by the three regex match results on the line.  When the HRMS
clause does not match, the source computes a Danger string into a local
that is then discarded, and returns null. -/
def getHrmsLine (isStrict : Bool) (data : String)
    (yieldMatch weightMatch : List (Option String))
    (hrmsMatch : Option (List (Option String))) : Option YieldWeightHrms :=
  match hrmsMatch with
  | none =>
    let _ := getDangerStr data (msgAt errMsgFormatErr) none
    none
  | some hm =>
    let hrms := (hm.getD 0 none).getD ""
    let errMsg1 :=
      if isStrict then
        match yieldMatch.getD 2 none with
        | some s => if s ≠ "" then getDangerStr data (msgAt errMsgFormatErr) (some s) else ""
        | none => ""
      else ""
    let errMsg2 :=
      if isStrict then
        match weightMatch.getD 2 none with
        | some s => if s ≠ " " then getDangerStr data (msgAt errMsgFormatErr) (some s) else errMsg1
        | none => errMsg1
      else errMsg1
    some ⟨hrms, errMsg2, jsNumOpt (yieldMatch.getD 1 none), jsNumOpt (weightMatch.getD 1 none)⟩

/-- One raw input line together with its three regex match results. -/
structure HrmsLineInput where
  data : String
  yieldMatch : List (Option String)
  weightMatch : List (Option String)
  hrmsMatch : Option (List (Option String))

/-- HrmsComponent.getHrmsDataArray: map over the input lines. -/
def getHrmsDataArray (isStrict : Bool) (lines : List HrmsLineInput) :
    List (Option YieldWeightHrms) :=
  lines.map (fun li => getHrmsLine isStrict li.data li.yieldMatch li.weightMatch li.hrmsMatch)

/-- The compact step in HrmsComponent.handle: null entries are removed
before rendering, so a line whose HRMS clause failed to match contributes
nothing to the output. -/
def handleValidHrms (isStrict : Bool) (lines : List HrmsLineInput) : List YieldWeightHrms :=
  (getHrmsDataArray isStrict lines).reduceOption

/-- The tail of renderStrArrays that every record not rejected by the
strict-mode checks reaches: the exact-vs-calculated consistency check,
then the success rendering.  Stated separately so that theorems can talk
about which records reach this code. -/
def consistencyCheckRender (willHighlight : Bool) (h : HrmsData) : String :=
  if roundTo 4 |h.exactMass.val - h.calcdMass| > 1 / 10 ^ 4 then
    dangerOnCondition willHighlight h.data
      (msgAt errMsgCalcErr ++ toFixedStr 4 h.calcdMass) (some h.exactMass.render)
  else
    if willHighlight then
      "<b>" ++ highlightData (jsReplace h.data h.formula (Formula.formattedString h.formula))
        HighlightType.Success "" ++ "</b>"
    else jsReplace h.data h.formula (Formula.canonicalString h.formula)

/-- A parsed record in strict mode whose exact mass carries 3 decimals;
its calculated mass is far from the reported one. -/
def exRecDecimals : HrmsData :=
  { data := "HRMS (ESI): calcd for C10H12N2O [M + H]+ 195.086, found 195.0868"
    source := "ESI", ion := "H", formula := "C10H12N2O"
    exactMass := ⟨195, [0, 8, 6]⟩, foundMass := ⟨195, [0, 8, 6, 8]⟩, calcdMass := 300 }

/-- A parsed record whose found mass deviates from the reported exact mass
by far more than 0.003, and whose calculated mass also disagrees. -/
def exRecLenient : HrmsData :=
  { data := "HRMS (ESI): calcd for CH4 [M + H]+ 195.0866, found 199.0000"
    source := "ESI", ion := "H", formula := "CH4"
    exactMass := ⟨195, [0, 8, 6, 6]⟩, foundMass := ⟨199, [0, 0, 0, 0]⟩, calcdMass := 200 }

/-- A parsed record that passes all strict-mode checks but whose
calculated mass disagrees with the reported exact mass. -/
def exRecStrictCalc : HrmsData :=
  { data := "HRMS (ESI): calcd for CH4 [M + H]+ 195.0866, found 195.0868"
    source := "ESI", ion := "H", formula := "CH4"
    exactMass := ⟨195, [0, 8, 6, 6]⟩, foundMass := ⟨195, [0, 8, 6, 8]⟩, calcdMass := 200 }

/-- An input line whose HRMS clause does not match hrmsReg, next to one
that does. -/
def exLineBad : HrmsLineInput :=
  { data := "this line carries no HRMS clause", yieldMatch := [some ""]
    weightMatch := [some ""], hrmsMatch := none }

def exLineGood : HrmsLineInput :=
  { data := "HRMS (ESI): calcd for CH4 [M + H]+ 17.0386, found 17.0387"
    yieldMatch := [some ""], weightMatch := [some ""]
    hrmsMatch := some [some "HRMS (ESI): calcd for CH4 [M + H]+ 17.0386, found 17.0387"] }

/-- The HRMS clause of exLineGood. -/
def exHrmsStr : String := "HRMS (ESI): calcd for CH4 [M + H]+ 17.0386, found 17.0387"

/-- Ion match for the clause [M + H]+. -/
def exIonMatch : IonMatch :=
  { whole := "[M + H]+", g1 := some " + ", g2 := some "H", g3 := none, g4 := none }

/-- Data match carrying formula CH4, exact mass 17.0386, found 17.0387. -/
def exDataMatch : DataMatch :=
  { formula := some "CH4", exactMass := some ⟨17, [0, 3, 8, 6]⟩
    foundMass := some ⟨17, [0, 3, 8, 7]⟩ }

/-- The record that parseHrmsData produces from the matches above. -/
def exHrmsRec : HrmsData :=
  { data := exHrmsStr, source := "ESI", ion := "H", formula := "CH4"
    exactMass := ⟨17, [0, 3, 8, 6]⟩, foundMass := ⟨17, [0, 3, 8, 7]⟩
    calcdMass := roundTo 4 (roundTo 5 (Formula.getExactMass "CH4" + getIonMass "H")) }

end HrmsComponent

/-! ## H1 component (h1Component.ts) -/

namespace H1Component

def peakRangePlaceholder : String := "PEAKRANGE"

/-- Tooltip error messages from the H1Component constructor; index 0 of the
source array is itself a list of four (English, Chinese) pairs. -/
def tooltipJ0 : List String := [" only", "只"]
def tooltipJ1 : List String := [" peak should", "峰应"]
def tooltipJ2 : List String := [" have ", "有"]
def tooltipJ3 : List String := [" coupling constant", "个耦合常数"]
def tooltip1 : List String := ["Invalid format.", "格式有误"]
def tooltip2 : List String :=
  ["Chemical shift of multiplet should be written from low field to high field.",
   "多重峰化学位移区间应由低场向高场书写"]
def tooltip3 : List String := [" peak type does not exists.", "峰类型不存在"]
def tooltip4 : List String :=
  ["Multiplet peaks should be reported in interval", "多重峰化学位移应为区间形式"]
def tooltip5 : List String :=
  ["Do not report coupling constants in multiplet peaks", "多重峰不存在耦合常数"]
def tooltip6 : List String := [" peak should have only one chemical shift", "峰化学位移应为单值"]
def tooltip7 : List String := [" peak do not have coupling constants", "峰不存在耦合常数"]
def tooltip8 : List String := [" peak should have coupling constants", "峰应有耦合常数"]
def tooltip9 : List String := ["Original data: ", "原始数据："]
def tooltip10 : List String :=
  [" peak has been marked as multiplets, please report the spectrum data manually",
   "峰已被标注为多重峰，请从MestReNova中手动输入化学位移数据"]

/-- Whitespace carried into template literals by line continuations. -/
def jsSpaces20 : String := "                    "
def jsSpaces12 : String := "            "

/-- Modelled from the spec: the multiplet alphabet of utils/nmr.ts, which
is not under src/ (spec section 3: s, d, t, q, m, dd, and further
multi-letter multiplets). -/
def multipletAlphabet : List String :=
  ["s", "br", "d", "t", "q", "dd", "dt", "td", "ddd", "m"]

/-- Modelled from the spec: utils/nmr.isPeak. -/
def isPeak (p : String) : Bool := multipletAlphabet.contains p

/-- Modelled from the spec: utils/nmr.isSinglePeak, multiplicities that
structurally cannot carry coupling constants. -/
def isSinglePeak (p : String) : Bool := p == "s" || p == "br"

/-- Modelled from the spec: utils/nmr.isMultiplePeak, the generic
multiplet. -/
def isMultiplePeak (p : String) : Bool := p == "m"

/-- Modelled from the spec: utils/nmr.isMultiplePeakWithJ; the
generalMultiplet mode flag toggles which multiplicities are treated as
requiring coupling constants. -/
def isMultiplePeakWithJ (p : String) (isGeneral : Bool) : Bool :=
  if isGeneral then ["d", "t", "q", "dd"].contains p
  else ["d", "t", "q", "dd", "dt", "td", "ddd"].contains p

/-- Modelled from the spec: utils/nmr.JCount, the fixed expected
coupling-constant count per multiplicity symbol (doublet 1, triplet 1,
quartet 1, dd 2, ddd 3, and 2 for the other two-letter multiplets). -/
def JCount (p : String) : Option ℕ :=
  [("d", 1), ("t", 1), ("q", 1), ("dd", 2), ("dt", 2), ("td", 2), ("ddd", 3)].lookup p

/-- Chemical shift of a peak entry: a single string, or the array produced
by splitting a range (H1Data.peak is string or string array). -/
inductive PeakShift
  | one : String → PeakShift
  | many : List String → PeakShift
deriving DecidableEq

/-- H1Data from utils/nmr, as used by h1Component.ts; absent object fields
are none. -/
structure H1Data where
  peak : PeakShift
  peakType : String
  Js : Option (List ℚ)
  hydrogenCount : Option ℚ
  danger : Option Bool
  warning : Option Bool
  peakTypeError : Option Bool
  errMsg : Option String
deriving DecidableEq

/-- H1Component.roundJ: snap J to a multiple of freq / 1000. -/
def roundJ (J freq : ℚ) : ℚ :=
  let MAGNIFICATION : ℚ := 1000;
  (jsMathRound (MAGNIFICATION * J / freq) : ℚ) * freq / MAGNIFICATION

/-- H1Component.isJValid: a falsy J is invalid, otherwise J is valid when
1000 * J is an exact multiple of freq under the JS remainder. -/
def isJValid (J freq : ℚ) : Bool :=
  if J = 0 then false
  else
    let MAGNIFICATION : ℚ := 1000;
    decide (jsMod (MAGNIFICATION * J) freq = 0)

/-- Hyphen characters of the shift-range split pattern. -/
def isHyphenCh (c : Char) : Bool := c = '–' || c = '−' || c = '-'

/-- Split on the pattern (spaces, hyphen, spaces), as the JS split with
the range regex does; acc holds the reversed current token, and the fuel
argument (initially the input length) keeps the recursion structural. -/
def splitHyphAux : ℕ → List Char → List Char → List String
  | _, [], acc => [String.mk acc.reverse]
  | 0, l, acc => [String.mk (acc.reverse ++ l)]
  | fuel + 1, c :: rest, acc =>
    if isHyphenCh c then
      String.mk ((acc.dropWhile (fun x => x = ' ')).reverse) ::
        splitHyphAux fuel (rest.dropWhile (fun x => x = ' ')) []
    else splitHyphAux fuel rest (c :: acc)

def splitHyph (s : String) : List String := splitHyphAux s.toList.length s.toList []

/-- First match of the range pattern in a shift string, with the spaces it
absorbs, as the JS match with the range regex returns it. -/
def firstHyphenMatchAux : List Char → List Char → Option String
  | [], _ => none
  | c :: rest, acc =>
    if isHyphenCh c then
      some (String.mk ((acc.takeWhile (fun x => x = ' ')) ++ [c] ++
        rest.takeWhile (fun x => x = ' ')))
    else firstHyphenMatchAux rest (c :: acc)

def firstHyphenMatch (s : String) : Option String := firstHyphenMatchAux s.toList []

def validHyphen : List String := ["–", " – ", "−", " − ", " - ", "-"]
def validEnding : List String := ["H", ".", ";"]

/-- Last character of a string, as substr(-1). -/
def lastCharStr (s : String) : String :=
  match s.toList.getLast? with
  | some c => String.mk [c]
  | none => ""

/-- Truthiness of a possibly absent boolean field. -/
def truthyOpt (o : Option Bool) : Bool := o.getD false

/-- Element i of a string array under JS semantics (undefined when out of
range), converted by Number. -/
def jsNumAt (l : List String) (i : ℕ) : Option ℚ :=
  match l.get? i with
  | none => none
  | some s => jsNumQ s

/-- The malformed-token Danger string of parsePeakData: close the
parenthesis if missing, escape, and annotate. -/
def peakDangerStr (data : String) : String :=
  let d := if containsSub data.toList ")".toList then data else data ++ ")"
  highlightData (escapeSpace d) HighlightType.Danger (msgAt tooltip1)

/-- Coupling constants captured by the with-coupling grammar: match groups
3 to 5 through Number, with falsy values (undefined, NaN, 0) compacted
away. -/
def capturedJs (g3 g4 g5 : Option String) : List ℚ :=
  (([g3, g4, g5].map jsNumOpt).filterMap id).filter (fun q => q ≠ 0)

/-- H1Component.parsePeakData, parameterized by the two regex match
results (with-coupling first, then without-coupling), translated branch by
branch from the source. -/
def parsePeakData (isStrict : Bool) (data : String)
    (couplingMatch nonCouplingMatch : Option (List (Option String))) : H1Data ⊕ String :=
  match couplingMatch with
  | some cm =>
    let Js := capturedJs (cm.getD 3 none) (cm.getD 4 none) (cm.getD 5 none)
    let peakType := (cm.getD 2 none).getD ""
    let JNumber := JCount peakType
    let mismatch :=
      match JNumber with
      | some n => Js.length ≠ n
      | none => true
    let zhi := if JNumber = some 1 then msgAt tooltipJ0 else ""
    let plural :=
      if langIdx = 1 && (match JNumber with | some n => decide (1 < n) | none => false)
      then "s" else ""
    let jshow :=
      match JNumber with
      | some n => toString n
      | none => "undefined"
    let errMsg :=
      if mismatch then
        peakType ++ msgAt tooltipJ1 ++ zhi ++ msgAt tooltipJ2 ++ jshow ++ msgAt tooltipJ3 ++ plural
      else ""
    Sum.inl
      { peak := PeakShift.one ((cm.getD 1 none).getD "")
        peakType := peakType
        Js := some Js
        hydrogenCount := jsNumOpt (cm.getD 6 none)
        danger := none
        warning := none
        peakTypeError := some mismatch
        errMsg := some errMsg }
  | none =>
    match nonCouplingMatch with
    | some ncm =>
      let g0 := (ncm.getD 0 none).getD ""
      let g1 := (ncm.getD 1 none).getD ""
      let hyphen := (firstHyphenMatch g1).getD ""
      let peakArr := splitHyph g1
      if !(validEnding.contains (lastCharStr g0)) then
        Sum.inr (peakDangerStr data)
      else if isStrict && !(validHyphen.contains hyphen) && hyphen ≠ "" then
        Sum.inl
          { peak := PeakShift.one (highlightData g1 HighlightType.Danger (msgAt tooltip1))
            peakType := (ncm.getD 3 none).getD ""
            Js := none
            hydrogenCount := jsNumOpt (ncm.getD 4 none)
            danger := none
            warning := none
            peakTypeError := none
            errMsg := none }
      else
        let peak :=
          match peakArr with
          | [x] => PeakShift.one x
          | l => PeakShift.many l
        let danger := jsLt (jsNumAt peakArr 0) (jsNumAt peakArr 1)
        let errMsg := if danger then msgAt tooltip2 else ""
        Sum.inl
          { peak := peak
            peakType := (ncm.getD 3 none).getD ""
            Js := none
            hydrogenCount := jsNumOpt (ncm.getD 4 none)
            danger := some danger
            warning := none
            peakTypeError := none
            errMsg := some errMsg }
    | none => Sum.inr (peakDangerStr data)

/-- H1Component.fixPeakData on a structured peak entry: the semantic pass
applied once per entry, translated branch by branch from the source.  The
generalChecked and autoFixJChecked arguments are the two mode check boxes
the source reads; note the source negates the first one. -/
def fixPeakDatum (generalChecked autoFixJChecked : Bool) (p : H1Data) (freq : ℚ) : H1Data :=
  let isGeneral := !generalChecked
  let willFixJ := autoFixJChecked
  if !(isPeak p.peakType) then
    { p with peakTypeError := some true, errMsg := some (p.peakType ++ msgAt tooltip3) }
  else if isMultiplePeak p.peakType then
    let p1 :=
      match p.peak with
      | PeakShift.one _ => { p with danger := some true, errMsg := some (msgAt tooltip4) }
      | PeakShift.many _ => p
    match p1.Js with
    | some _ => { p1 with warning := some true, errMsg := some (msgAt tooltip5) }
    | none => p1
  else
    let p1 :=
      match p.peak with
      | PeakShift.one _ => p
      | PeakShift.many _ =>
        { p with danger := some true, errMsg := some (p.peakType ++ msgAt tooltip6) }
    if isSinglePeak p1.peakType then
      match p1.Js with
      | some _ =>
        { p1 with peakTypeError := some true, errMsg := some (p1.peakType ++ msgAt tooltip7) }
      | none => p1
    else if isMultiplePeakWithJ p1.peakType isGeneral then
      if willFixJ then
        match p1.Js with
        | none =>
          { p1 with peakTypeError := some true, errMsg := some (p1.peakType ++ msgAt tooltip8) }
        | some js =>
          let isAllJValid := js.all (fun J => isJValid J freq)
          if !isAllJValid && !(truthyOpt p1.peakTypeError) then
            { p1 with
                Js := some (js.map (fun J => roundJ J freq))
                warning := some true
                errMsg := some (msgAt tooltip9 ++ "<em>J</em> = " ++ jsSpaces20 ++
                  String.intercalate ", " (js.map (toFixedStr 1)) ++ " Hz") }
          else p1
      else p1
    else
      { p1 with
          danger := some true
          peakType := "m"
          peak := PeakShift.one peakRangePlaceholder
          Js := none
          errMsg := some (p.peakType ++ jsSpaces12 ++ msgAt tooltip10) }

/-- H1Component.fixPeakData: bubbled-up error strings pass through. -/
def fixPeakData (generalChecked autoFixJChecked : Bool) (pd : H1Data ⊕ String) (freq : ℚ) :
    H1Data ⊕ String :=
  match pd with
  | Sum.inr s => Sum.inr s
  | Sum.inl p => Sum.inl (fixPeakDatum generalChecked autoFixJChecked p freq)

/-- A peak entry with all annotation content removed from the message
field, used to compare corrector outputs up to the message text. -/
def eraseErrMsg (p : H1Data) : H1Data := { p with errMsg := none }

/-- A parsed triplet whose single coupling constant 0.1 Hz rounds to 0 at
400 MHz. -/
def exTriplet : H1Data :=
  { peak := PeakShift.one "7.15", peakType := "t", Js := some [1 / 10]
    hydrogenCount := some 1, danger := none, warning := none
    peakTypeError := some false, errMsg := some "" }

/-- Without-coupling match for the token 6.68 – 7.10 (m, 1H): the range is
written upward (low value first). -/
def exMatchAsc : List (Option String) :=
  [some "6.68 – 7.10 (m, 1H", some "6.68 – 7.10", some "", some "m", some "1"]

/-- Without-coupling match for the token 7.10 – 6.68 (m, 1H): the range is
written downward (high value first), as in the source doc example. -/
def exMatchDesc : List (Option String) :=
  [some "7.10 – 6.68 (m, 1H", some "7.10 – 6.68", some "", some "m", some "1"]

/-- Without-coupling match for the token 7.10 – 7.10 (m, 1H): the two
bounds are numerically equal. -/
def exMatchEq : List (Option String) :=
  [some "7.10 – 7.10 (m, 1H", some "7.10 – 7.10", some "", some "m", some "1"]

/-- With-coupling match for the token 7.15 (t, J = 11.2, 1.0 Hz, 1H): a
triplet carrying two coupling constants. -/
def exMatchT2 : List (Option String) :=
  [some "7.15 (t, J = 11.2, 1.0 Hz, 1H)", some "7.15", some "t", some "11.2", some "1.0",
   none, some "1"]

/-- The entry parsePeakData produces from exMatchT2: still structured, with
peakTypeError set and the expected count 1 named in the message. -/
def exT2Entry : H1Data :=
  { peak := PeakShift.one "7.15", peakType := "t", Js := some [56 / 5, 1]
    hydrogenCount := some 1, danger := none, warning := none
    peakTypeError := some true
    errMsg := some "t peak should only have 1 coupling constant" }

end H1Component

end ChemSI

/-! ## Theorems

Helper lemmas first, then one theorem per claim (with witnesses and
counterexamples where applicable). -/

namespace ChemSI

open HrmsComponent H1Component

theorem jsMathRound_nearest (t : ℚ) (m : ℤ) :
    |(jsMathRound t : ℚ) - t| ≤ |(m : ℚ) - t| := by
  unfold jsMathRound
  have h1 : ((⌊t + 1 / 2⌋ : ℤ) : ℚ) ≤ t + 1 / 2 := Int.floor_le _
  have h2 : t + 1 / 2 < ((⌊t + 1 / 2⌋ : ℤ) : ℚ) + 1 := Int.lt_floor_add_one _
  rcases eq_or_ne m ⌊t + 1 / 2⌋ with rfl | hne
  · exact le_refl _
  · have habs : |((⌊t + 1 / 2⌋ : ℤ) : ℚ) - t| ≤ 1 / 2 :=
      abs_le.mpr ⟨by linarith, by linarith⟩
    rcases lt_or_gt_of_ne hne with hlt | hgt
    · have hc : ((m : ℤ) : ℚ) ≤ ((⌊t + 1 / 2⌋ : ℤ) : ℚ) - 1 := by
        have h3 : m ≤ ⌊t + 1 / 2⌋ - 1 := by omega
        calc ((m : ℤ) : ℚ) ≤ ((⌊t + 1 / 2⌋ - 1 : ℤ) : ℚ) := by exact_mod_cast h3
          _ = ((⌊t + 1 / 2⌋ : ℤ) : ℚ) - 1 := by push_cast; ring
      have hge : 1 / 2 ≤ -(((m : ℤ) : ℚ) - t) := by linarith
      calc |((⌊t + 1 / 2⌋ : ℤ) : ℚ) - t| ≤ 1 / 2 := habs
        _ ≤ -(((m : ℤ) : ℚ) - t) := hge
        _ ≤ |((m : ℤ) : ℚ) - t| := neg_le_abs _
    · have hc : ((⌊t + 1 / 2⌋ : ℤ) : ℚ) + 1 ≤ ((m : ℤ) : ℚ) := by
        exact_mod_cast Int.cast_le.mpr (by omega : ⌊t + 1 / 2⌋ + 1 ≤ m)
      have hge : 1 / 2 ≤ ((m : ℤ) : ℚ) - t := by linarith
      calc |((⌊t + 1 / 2⌋ : ℤ) : ℚ) - t| ≤ 1 / 2 := habs
        _ ≤ ((m : ℤ) : ℚ) - t := hge
        _ ≤ |((m : ℤ) : ℚ) - t| := le_abs_self _

theorem jsMathRound_intCast (k : ℤ) : jsMathRound (k : ℚ) = k := by
  unfold jsMathRound
  rw [show ((k : ℚ) + 1 / 2) = (1 : ℚ) / 2 + k by ring, Int.floor_add_int]
  norm_num

theorem roundJ_eq (J freq : ℚ) :
    roundJ J freq = (jsMathRound (1000 * J / freq) : ℚ) * freq / 1000 := rfl

theorem roundJ_idem (J freq : ℚ) : roundJ (roundJ J freq) freq = roundJ J freq := by
  rcases eq_or_ne freq 0 with rfl | hf
  · simp [roundJ_eq]
  · rw [roundJ_eq, roundJ_eq J freq]
    have h : (1000 : ℚ) * ((jsMathRound (1000 * J / freq) : ℚ) * freq / 1000) / freq =
        (jsMathRound (1000 * J / freq) : ℚ) := by
      field_simp
    rw [h, jsMathRound_intCast]

theorem containsSub_middle (u v w : List Char) : containsSub (u ++ v ++ w) v = true := by
  rw [containsSub, List.any_eq_true]
  refine ⟨v ++ w, (List.mem_tails _ _).mpr ⟨u, by simp⟩, ?_⟩
  exact List.isPrefixOf_iff_prefix.mpr ⟨w, rfl⟩

theorem parsePeak_noCoupling_eq (isStrict : Bool) (data g0 g1 : String) (g2 : Option String)
    (g3 g4 : String)
    (hend : lastCharStr g0 ∈ validEnding)
    (hhyph : ¬((isStrict = true ∧ (firstHyphenMatch g1).getD "" ∉ validHyphen) ∧
      ¬(firstHyphenMatch g1).getD "" = "")) :
    parsePeakData isStrict data none (some [some g0, some g1, g2, some g3, some g4]) =
      Sum.inl
        { peak := (match splitHyph g1 with | [x] => PeakShift.one x | l => PeakShift.many l)
          peakType := g3, Js := none, hydrogenCount := jsNumQ g4
          danger := some (jsLt (jsNumAt (splitHyph g1) 0) (jsNumAt (splitHyph g1) 1))
          warning := none, peakTypeError := none
          errMsg := some (if jsLt (jsNumAt (splitHyph g1) 0) (jsNumAt (splitHyph g1) 1)
            then msgAt tooltip2 else "") } := by
  simp [parsePeakData, hend, hhyph, jsNumOpt]

/-- Claim C1 (code bug): when the HRMS clause of a line fails to match the
HRMS grammar, the per-line handler returns null (the Danger string it
computes is discarded), and the compact step of handle removes the line
from the output entirely: no Danger-annotated record is produced for it,
while sibling lines are unaffected.  The spec says the line is kept as a
Danger-annotated record. -/
theorem claim1_hrms_format_mismatch_drops_line :
    (∀ (isStrict : Bool) (data : String) (ym wm : List (Option String)),
      getHrmsLine isStrict data ym wm none = none) ∧
    handleValidHrms false [exLineBad, exLineGood] =
      [⟨"HRMS (ESI): calcd for CH4 [M + H]+ 17.0386, found 17.0387", "", none, none⟩] :=
  ⟨fun _ _ _ _ => rfl, rfl⟩

/-- Claim C2 counterexample: a strict-mode record whose exact mass has 3
decimals and whose calculated mass deviates by far more than 0.0001 is
annotated with the decimal-precision message, not with the
calculated-value message: the consistency check does not always run. -/
theorem claim2_consistency_check_skipped_cex :
    roundTo 4 |exRecDecimals.exactMass.val - exRecDecimals.calcdMass| > 1 / 10 ^ 4 ∧
    renderHrmsDatum true true (Sum.inr exRecDecimals) =
      getDangerStr exRecDecimals.data (msgAt errMsgDecimalErr) (some "195.086") ∧
    renderHrmsDatum true true (Sum.inr exRecDecimals) ≠
      getDangerStr exRecDecimals.data
        (msgAt errMsgCalcErr ++ toFixedStr 4 exRecDecimals.calcdMass)
        (some exRecDecimals.exactMass.render) := by decide

/-- Claim C2 (amended): the consistency check runs for every parsed record
that the strict-mode checks do not reject first: in strict mode when both
reported masses carry 4 decimals and |found - exact| is within 0.003, and
in lenient mode always, on the exact mass coerced to 4 decimals.  When it
runs and round(|exact - calculated|, 4) > 0.0001, the record is
Danger-annotated with the calculated mass shown to 4 decimal places. -/
theorem claim2_consistency_check_amended :
    (∀ (wh : Bool) (h : HrmsData),
      h.exactMass.fracLen = 4 → h.foundMass.fracLen = 4 →
      |h.foundMass.val - h.exactMass.val| ≤ 3 / 1000 →
      roundTo 4 |h.exactMass.val - h.calcdMass| > 1 / 10 ^ 4 →
      renderHrmsDatum true wh (Sum.inr h) =
        dangerOnCondition wh h.data (msgAt errMsgCalcErr ++ toFixedStr 4 h.calcdMass)
          (some h.exactMass.render)) ∧
    (∀ (wh : Bool) (h : HrmsData),
      roundTo 4 |(toFixedMass 4 h.exactMass.val).val - h.calcdMass| > 1 / 10 ^ 4 →
      renderHrmsDatum false wh (Sum.inr h) =
        dangerOnCondition wh h.data (msgAt errMsgCalcErr ++ toFixedStr 4 h.calcdMass)
          (some (toFixedMass 4 h.exactMass.val).render)) := by
  constructor
  · intro wh h h1 h2 h3 h4
    simp [renderHrmsDatum, h1, h2, not_lt.mpr h3]
    intro h5
    exact absurd h5 (by simpa [one_div] using not_le.mpr h4)
  · intro wh h h4
    simp [renderHrmsDatum]
    intro h5
    exact absurd h5 (by simpa [one_div] using not_le.mpr h4)

/-- Claim C2 witness: both amended branches evaluated at concrete records. -/
theorem claim2_consistency_check_amended_witness :
    renderHrmsDatum true true (Sum.inr exRecStrictCalc) =
      dangerOnCondition true exRecStrictCalc.data
        (msgAt errMsgCalcErr ++ toFixedStr 4 exRecStrictCalc.calcdMass)
        (some exRecStrictCalc.exactMass.render) ∧
    renderHrmsDatum false true (Sum.inr exRecLenient) =
      dangerOnCondition true exRecLenient.data
        (msgAt errMsgCalcErr ++ toFixedStr 4 exRecLenient.calcdMass)
        (some (toFixedMass 4 exRecLenient.exactMass.val).render) :=
  ⟨claim2_consistency_check_amended.1 true exRecStrictCalc
      (by decide) (by decide) (by decide) (by decide),
    claim2_consistency_check_amended.2 true exRecLenient (by decide)⟩

/-- Claim C3 counterexample: in lenient mode a record whose found mass
deviates from the exact mass by almost 4 (far above 0.003) is not flagged
with the deviation message; the code goes straight to the consistency
check insead, so the |found - exact| comparison is not performed in
lenient mode. -/
theorem claim3_lenient_tolerance_skipped_cex :
    |exRecLenient.foundMass.val - exRecLenient.exactMass.val| > 3 / 1000 ∧
    renderHrmsDatum false true (Sum.inr exRecLenient) =
      getDangerStr exRecLenient.data
        (msgAt errMsgCalcErr ++ toFixedStr 4 exRecLenient.calcdMass) (some "195.0866") ∧
    renderHrmsDatum false true (Sum.inr exRecLenient) ≠
      dangerOnCondition true exRecLenient.data (msgAt errMsgFoundErr)
        (some exRecLenient.foundMass.render) := by decide

/-- Claim C3 (amended): in strict mode the checks run in the claimed
order: (a) exact mass must carry 4 decimals, else decimal-error Danger;
(b) found mass must carry 4 decimals, else decimal-error Danger; (c) else
if |found - exact| > 0.003, deviation Danger; records passing all three
reach the consistency check.  In lenient mode checks (a), (b) and also (c)
are skipped: the exact mass is coerced to 4 decimals and only the
consistency check runs on the coerced record. -/
theorem claim3_validation_sequence_amended :
    (∀ (wh : Bool) (h : HrmsData), h.exactMass.fracLen ≠ 4 →
      renderHrmsDatum true wh (Sum.inr h) =
        dangerOnCondition wh h.data (msgAt errMsgDecimalErr) (some h.exactMass.render)) ∧
    (∀ (wh : Bool) (h : HrmsData), h.exactMass.fracLen = 4 → h.foundMass.fracLen ≠ 4 →
      renderHrmsDatum true wh (Sum.inr h) =
        dangerOnCondition wh h.data (msgAt errMsgDecimalErr) (some h.foundMass.render)) ∧
    (∀ (wh : Bool) (h : HrmsData), h.exactMass.fracLen = 4 → h.foundMass.fracLen = 4 →
      |h.foundMass.val - h.exactMass.val| > 3 / 1000 →
      renderHrmsDatum true wh (Sum.inr h) =
        dangerOnCondition wh h.data (msgAt errMsgFoundErr) (some h.foundMass.render)) ∧
    (∀ (wh : Bool) (h : HrmsData), h.exactMass.fracLen = 4 → h.foundMass.fracLen = 4 →
      |h.foundMass.val - h.exactMass.val| ≤ 3 / 1000 →
      renderHrmsDatum true wh (Sum.inr h) = consistencyCheckRender wh h) ∧
    (∀ (wh : Bool) (h : HrmsData),
      renderHrmsDatum false wh (Sum.inr h) =
        consistencyCheckRender wh { h with exactMass := toFixedMass 4 h.exactMass.val }) := by
  refine ⟨?_, ?_, ?_, ?_, ?_⟩
  · intro wh h h1
    simp [renderHrmsDatum, h1]
  · intro wh h h1 h2
    simp [renderHrmsDatum, h1, h2]
  · intro wh h h1 h2 h3
    simp [renderHrmsDatum, h1, h2, h3]
  · intro wh h h1 h2 h3
    simp [renderHrmsDatum, consistencyCheckRender, h1, h2, not_lt.mpr h3]
  · intro wh h
    simp [renderHrmsDatum, consistencyCheckRender]

/-- Claim C3 witness: the strict decimal check, the strict deviation
check, and the lenient coercion path evaluated at concrete records. -/
theorem claim3_validation_sequence_amended_witness :
    renderHrmsDatum true true (Sum.inr exRecDecimals) =
      dangerOnCondition true exRecDecimals.data (msgAt errMsgDecimalErr)
        (some exRecDecimals.exactMass.render) ∧
    renderHrmsDatum true true (Sum.inr exRecLenient) =
      dangerOnCondition true exRecLenient.data (msgAt errMsgFoundErr)
        (some exRecLenient.foundMass.render) ∧
    renderHrmsDatum false true (Sum.inr exRecLenient) =
      consistencyCheckRender true
        { exRecLenient with exactMass := toFixedMass 4 exRecLenient.exactMass.val } :=
  ⟨claim3_validation_sequence_amended.1 true exRecDecimals (by decide),
    claim3_validation_sequence_amended.2.2.1 true exRecLenient (by decide) (by decide) (by decide),
    claim3_validation_sequence_amended.2.2.2.2 true exRecLenient⟩

/-- Claim C4 counterexample: isJValid(7.6, 400) does not return false.
1000 * 7.6 = 7600 is an exact multiple of 400 (also in IEEE doubles). -/
theorem claim4_isJValid_76_400_cex : ¬ (isJValid (76 / 10) 400 = false) := by decide

/-- Claim C4 (amended): isJValid(7.6, 400) returns true, and roundJ leaves
7.6 fixed at 400 MHz. -/
theorem claim4_isJValid_76_400_true :
    isJValid (76 / 10) 400 = true ∧ roundJ (76 / 10) 400 = 76 / 10 := by decide

/-- Claim C5: roundJ(J, freq) equals round(1000 * J / freq) * freq / 1000,
an integer multiple of freq / 1000 that is nearest to J among all integer
multiples of freq / 1000. -/
theorem claim5_roundJ_nearest_multiple (J freq : ℚ) (hf : 0 < freq) :
    roundJ J freq = (jsMathRound (1000 * J / freq) : ℚ) * freq / 1000 ∧
    (∃ k : ℤ, roundJ J freq = (k : ℚ) * (freq / 1000)) ∧
    ∀ m : ℤ, |roundJ J freq - J| ≤ |(m : ℚ) * (freq / 1000) - J| := by
  have hf0 : freq ≠ 0 := ne_of_gt hf
  refine ⟨roundJ_eq J freq, ⟨jsMathRound (1000 * J / freq), by rw [roundJ_eq]; ring⟩, ?_⟩
  intro m
  have e1 : roundJ J freq - J =
      ((jsMathRound (1000 * J / freq) : ℚ) - 1000 * J / freq) * (freq / 1000) := by
    rw [roundJ_eq]; field_simp
  have e2 : (m : ℚ) * (freq / 1000) - J = ((m : ℚ) - 1000 * J / freq) * (freq / 1000) := by
    field_simp
  rw [e1, e2, abs_mul, abs_mul]
  exact mul_le_mul_of_nonneg_right (jsMathRound_nearest _ _) (abs_nonneg _)

/-- Claim C5 witness: the rounding characterization at J = 7.6, freq 400. -/
theorem claim5_roundJ_nearest_multiple_witness :
    (0 : ℚ) < 400 ∧
    (roundJ (76 / 10) 400 = (jsMathRound (1000 * (76 / 10) / 400) : ℚ) * 400 / 1000 ∧
      (∃ k : ℤ, roundJ (76 / 10) 400 = (k : ℚ) * (400 / 1000)) ∧
      ∀ m : ℤ, |roundJ (76 / 10) 400 - 76 / 10| ≤ |(m : ℚ) * (400 / 1000) - 76 / 10|) :=
  ⟨by norm_num, claim5_roundJ_nearest_multiple (76 / 10) 400 (by norm_num)⟩

/-- Claim C6 counterexample: the Corrector is not idempotent.  A triplet
with the single coupling constant 0.1 Hz at 400 MHz is rounded to 0 on the
first pass with the message naming 0.1; the second pass rounds again and
rewrites the message naming 0.0, so the two results differ. -/
theorem claim6_corrector_not_idempotent_cex :
    fixPeakData false true (fixPeakData false true (Sum.inl exTriplet) 400) 400 ≠
      fixPeakData false true (Sum.inl exTriplet) 400 := by decide

/-- Claim C6 (amended): running the Corrector a second time changes no
field except possibly the error message: the shift, multiplicity, coupling
constants, hydrogen count and the danger, warning and peakTypeError
classifications are unchanged. -/
theorem claim6_corrector_idempotent_up_to_message (g a : Bool) (p : H1Data) (freq : ℚ) :
    eraseErrMsg (fixPeakDatum g a (fixPeakDatum g a p freq) freq) =
      eraseErrMsg (fixPeakDatum g a p freq) := by
  by_cases hp : isPeak p.peakType
  · by_cases hm : isMultiplePeak p.peakType
    · rcases hpk : p.peak with s | l <;> rcases hJs : p.Js with _ | js <;>
        simp [fixPeakDatum, hp, hm, hpk, hJs, eraseErrMsg]
    · have hpm : isPeak "m" = true := by decide
      have hmm : isMultiplePeak "m" = true := by decide
      by_cases hs : isSinglePeak p.peakType
      · rcases hpk : p.peak with s | l <;> rcases hJs : p.Js with _ | js <;>
          simp [fixPeakDatum, hp, hm, hs, hpk, hJs, eraseErrMsg]
      · by_cases hw : isMultiplePeakWithJ p.peakType (!g)
        · by_cases ha : a
          · rcases hJs : p.Js with _ | js
            · rcases hpk : p.peak with s | l <;>
                simp [fixPeakDatum, hp, hm, hs, hw, ha, hpk, hJs, eraseErrMsg]
            · by_cases hv : (!(js.all fun J => isJValid J freq) &&
                !(truthyOpt p.peakTypeError)) = true
              · have hparts := hv
                simp only [Bool.and_eq_true, Bool.not_eq_true'] at hparts
                by_cases hex : ∃ x ∈ js, isJValid (roundJ x freq) freq = false
                · rcases hpk : p.peak with s | l <;>
                    simp [fixPeakDatum, hp, hm, hs, hw, ha, hpk, hJs, hparts.1, hparts.2, hex,
                      eraseErrMsg, List.map_map, Function.comp_def, roundJ_idem]
                · rcases hpk : p.peak with s | l <;>
                    simp [fixPeakDatum, hp, hm, hs, hw, ha, hpk, hJs, hparts.1, hparts.2, hex,
                      eraseErrMsg]
              · rcases hpk : p.peak with s | l <;>
                  simp [fixPeakDatum, hp, hm, hs, hw, ha, hpk, hJs, hv, eraseErrMsg]
          · rcases hpk : p.peak with s | l <;>
              simp [fixPeakDatum, hp, hm, hs, hw, ha, hpk, eraseErrMsg]
        · rcases hpk : p.peak with s | l <;>
            simp [fixPeakDatum, hp, hm, hs, hw, hpk, hpm, hmm, eraseErrMsg]
  · simp [fixPeakDatum, hp, eraseErrMsg]

/-- Claim C7 counterexample: for the range 6.68 - 7.10 written upward (low
value first), the claim predicts no Danger, but the code flags Danger: the
code marks ranges whose first bound is numerically smaller, because proton
shifts must be reported from low field (high ppm) downward. -/
theorem claim7_range_order_cex :
    parsePeakData false "6.68 – 7.10 (m, 1H)" none (some exMatchAsc) =
      Sum.inl
        { peak := PeakShift.many ["6.68", "7.10"], peakType := "m", Js := none
          hydrogenCount := some 1, danger := some true, warning := none
          peakTypeError := none, errMsg := some (msgAt tooltip2) } ∧
    jsNumQ "6.68" = some (167 / 25) ∧ jsNumQ "7.10" = some (71 / 10) ∧
    (167 / 25 : ℚ) < 71 / 10 := by decide

/-- Claim C7 (amended): for a without-coupling token whose shift splits
into two bounds, the entry is flagged Danger with the low-to-high message
exactly when the first bound is numerically less than the second;
otherwise no Danger flag is set. -/
theorem claim7_range_order_amended (isStrict : Bool) (data g0 g1 : String) (g2 : Option String)
    (g3 g4 a b : String)
    (hend : lastCharStr g0 ∈ validEnding)
    (hhyph : ¬((isStrict = true ∧ (firstHyphenMatch g1).getD "" ∉ validHyphen) ∧
      ¬(firstHyphenMatch g1).getD "" = ""))
    (hsplit : splitHyph g1 = [a, b]) :
    parsePeakData isStrict data none (some [some g0, some g1, g2, some g3, some g4]) =
      Sum.inl
        { peak := PeakShift.many [a, b], peakType := g3, Js := none
          hydrogenCount := jsNumQ g4, danger := some (jsLt (jsNumQ a) (jsNumQ b))
          warning := none, peakTypeError := none
          errMsg := some (if jsLt (jsNumQ a) (jsNumQ b) then msgAt tooltip2 else "") } := by
  rw [parsePeak_noCoupling_eq isStrict data g0 g1 g2 g3 g4 hend hhyph, hsplit]
  simp [jsNumAt]

/-- Claim C7 witness: the downward range 7.10 - 6.68 parses unflagged. -/
theorem claim7_range_order_amended_witness :
    parsePeakData false "7.10 – 6.68 (m, 1H)" none (some exMatchDesc) =
      Sum.inl
        { peak := PeakShift.many ["7.10", "6.68"], peakType := "m", Js := none
          hydrogenCount := jsNumQ "1", danger := some (jsLt (jsNumQ "7.10") (jsNumQ "6.68"))
          warning := none, peakTypeError := none
          errMsg := some (if jsLt (jsNumQ "7.10") (jsNumQ "6.68") then msgAt tooltip2 else "") } :=
  claim7_range_order_amended false "7.10 – 6.68 (m, 1H)" "7.10 – 6.68 (m, 1H" "7.10 – 6.68"
    (some "") "m" "1" "7.10" "6.68" (by decide) (by decide) (by decide)

/-- Claim C8: when the number of captured coupling constants differs from
the expected count for the multiplicity symbol, parsePeakData still
returns the structured entry, with peakTypeError set and the expected
count named in the message; in particular the triplet token with two
captured constants yields the message naming count 1. -/
theorem claim8_coupling_count_mismatch :
    (∀ (isStrict : Bool) (data : String) (g0 g1 : Option String) (pt : String)
      (j1 j2 j3 hc : Option String) (ncm : Option (List (Option String))) (n : ℕ),
      JCount pt = some n → (capturedJs j1 j2 j3).length ≠ n →
      ∃ m : String,
        (parsePeakData isStrict data (some [g0, g1, some pt, j1, j2, j3, hc]) ncm =
          Sum.inl
            { peak := PeakShift.one (g1.getD ""), peakType := pt
              Js := some (capturedJs j1 j2 j3), hydrogenCount := jsNumOpt hc
              danger := none, warning := none, peakTypeError := some true
              errMsg := some m }) ∧
        containsSub m.toList (toString n).toList = true) ∧
    parsePeakData false "7.15 (t, J = 11.2, 1.0 Hz, 1H)" (some exMatchT2) none =
      Sum.inl exT2Entry := by
  constructor
  · intro isStrict data g0 g1 pt j1 j2 j3 hc ncm n hJC hlen
    refine ⟨pt ++ msgAt tooltipJ1 ++ (if n = 1 then msgAt tooltipJ0 else "") ++
      msgAt tooltipJ2 ++ toString n ++ msgAt tooltipJ3, ?_, ?_⟩
    · simp [parsePeakData, hJC, hlen, langIdx]
    · have h := containsSub_middle
        (pt ++ msgAt tooltipJ1 ++ (if n = 1 then msgAt tooltipJ0 else "") ++
          msgAt tooltipJ2).toList
        (toString n).toList (msgAt tooltipJ3).toList
      simpa [String.toList, String.data_append, List.append_assoc] using h
  · decide

/-- Claim C8 witness: the general statement applied to the triplet token
with two captured coupling constants (expected count 1). -/
theorem claim8_coupling_count_mismatch_witness :
    ∃ m : String,
      (parsePeakData false "7.15 (t, J = 11.2, 1.0 Hz, 1H)"
        (some [some "7.15 (t, J = 11.2, 1.0 Hz, 1H)", some "7.15", some "t", some "11.2",
          some "1.0", none, some "1"]) none =
        Sum.inl
          { peak := PeakShift.one "7.15", peakType := "t"
            Js := some (capturedJs (some "11.2") (some "1.0") none)
            hydrogenCount := jsNumOpt (some "1")
            danger := none, warning := none, peakTypeError := some true
            errMsg := some m }) ∧
      containsSub m.toList (toString 1).toList = true :=
  claim8_coupling_count_mismatch.1 false "7.15 (t, J = 11.2, 1.0 Hz, 1H)"
    (some "7.15 (t, J = 11.2, 1.0 Hz, 1H)") (some "7.15") "t" (some "11.2") (some "1.0")
    none (some "1") none 1 (by decide) (by decide)

/-- Claim C9: the ion mass adjustment is 0 for the empty counter ion and a
single fixed electron-mass deduction for any non-empty ion, and every
successfully parsed HRMS record carries
calcdMass = round(round(exactMass(formula) + ionMass(ion), 5), 4). -/
theorem claim9_calcd_mass_formula :
    getIonMass "" = 0 ∧
    (∀ ion : String, ¬ion = "" → getIonMass ion = -(549 / 10 ^ 6)) ∧
    (∀ (isStrict : Bool) (hd : String) (sm : Option (Option String)) (im : Option IonMatch)
      (dm : Option DataMatch) (rec : HrmsData),
      parseHrmsData isStrict hd sm im dm = Sum.inr rec →
      rec.calcdMass =
        roundTo 4 (roundTo 5 (Formula.getExactMass rec.formula + getIonMass rec.ion))) := by
  refine ⟨rfl, ?_, ?_⟩
  · intro ion hion
    simp [getIonMass, hion]
  · intro s hd sm im dm rec h
    unfold parseHrmsData at h
    repeat' (first | split at h | simp only [] at h)
    all_goals first
      | (injection h with h2; subst h2; rfl)
      | exact absurd h (by simp)

/-- Claim C9 witness: the calculated-mass identity at a concrete parse of
formula CH4 with counter ion H. -/
theorem claim9_calcd_mass_formula_witness :
    getIonMass "H" = -(549 / 10 ^ 6) ∧
    parseHrmsData false exHrmsStr (some (some "ESI")) (some exIonMatch) (some exDataMatch) =
      Sum.inr exHrmsRec ∧
    exHrmsRec.calcdMass =
      roundTo 4 (roundTo 5 (Formula.getExactMass exHrmsRec.formula + getIonMass exHrmsRec.ion)) :=
  ⟨claim9_calcd_mass_formula.2.1 "H" (by decide), by decide,
    claim9_calcd_mass_formula.2.2 false exHrmsStr (some (some "ESI")) (some exIonMatch)
      (some exDataMatch) exHrmsRec (by decide)⟩

/-- Claim C10: a without-coupling token whose two range bounds are
numerically equal is not flagged Danger and carries no range-order
message. -/
theorem claim10_equal_bounds_accepted (isStrict : Bool) (data g0 g1 : String)
    (g2 : Option String) (g3 g4 a b : String) (v : ℚ)
    (hend : lastCharStr g0 ∈ validEnding)
    (hhyph : ¬((isStrict = true ∧ (firstHyphenMatch g1).getD "" ∉ validHyphen) ∧
      ¬(firstHyphenMatch g1).getD "" = ""))
    (hsplit : splitHyph g1 = [a, b])
    (hva : jsNumQ a = some v) (hvb : jsNumQ b = some v) :
    parsePeakData isStrict data none (some [some g0, some g1, g2, some g3, some g4]) =
      Sum.inl
        { peak := PeakShift.many [a, b], peakType := g3, Js := none
          hydrogenCount := jsNumQ g4, danger := some false
          warning := none, peakTypeError := none, errMsg := some "" } := by
  rw [parsePeak_noCoupling_eq isStrict data g0 g1 g2 g3 g4 hend hhyph, hsplit]
  simp [jsNumAt, hva, hvb, jsLt]

/-- Claim C10 witness: the token 7.10 - 7.10 (m, 1H) parses unflagged. -/
theorem claim10_equal_bounds_accepted_witness :
    parsePeakData false "7.10 – 7.10 (m, 1H)" none (some exMatchEq) =
      Sum.inl
        { peak := PeakShift.many ["7.10", "7.10"], peakType := "m", Js := none
          hydrogenCount := jsNumQ "1", danger := some false
          warning := none, peakTypeError := none, errMsg := some "" } :=
  claim10_equal_bounds_accepted false "7.10 – 7.10 (m, 1H)" "7.10 – 7.10 (m, 1H" "7.10 – 7.10"
    (some "") "m" "1" "7.10" "7.10" (71 / 10) (by decide) (by decide) (by decide) (by decide)
    (by decide)

end ChemSI
